import Mathlib

/-!
Verification of the payment-platform relay (`src/server.js`).

The development shallowly embeds the request handlers of the Express
application as pure Lean functions:

* bytes are `Nat` values below 256, 32-bit words are `Nat` values reduced
  modulo `2^32` (`w32`);
* `crypto.createHmac('sha256', secret).update(m).digest('hex')` is embedded
  as a full executable HMAC-SHA256 over UTF-8 bytes (`hmacSha256Hex`);
* JSON bodies are values of an inductive `Json` type;
  `JSON.stringify` / `JSON.parse` (the `express.json()` body parser) are
  embedded as `Json.stringify` / `jsonParse`;
* JavaScript's loosely-typed request fields are values of `JSVal`, with
  JavaScript truthiness (`jsTruthy`) and number coercion (`jsToNumber`)
  restricted to integer-valued numbers plus `NaN`;
* nondeterministic inputs of a handler (current time `Date.now()`, the
  `Math.random()` draw, request headers, the upstream processor's outcome)
  are explicit parameters: `Math.random()` is modelled as `k / 2^53` for
  a parameter `k < 2^53`, which is the value set of V8 doubles produced
  by `Math.random`.
-/

namespace Server

/-! ## 32-bit words as `Nat` modulo `2^32` -/

/-- Reduce a `Nat` to a 32-bit word. -/
def w32 (n : Nat) : Nat := n % 4294967296

/-- Right rotation within 32 bits (the operand is assumed below `2^32`). -/
def rotr (n x : Nat) : Nat := w32 ((x >>> n) + (x <<< (32 - n)))

/-- Right shift. -/
def shr (n x : Nat) : Nat := x >>> n

/-- Bitwise complement within 32 bits. -/
def not32 (x : Nat) : Nat := 4294967295 - x % 4294967296

/-! ## SHA-256 (FIPS 180-4), over byte lists -/

/-- Round constants of SHA-256. -/
def sha256K : List Nat :=
  [1116352408, 1899447441, 3049323471, 3921009573, 961987163,
   1508970993, 2453635748, 2870763221, 3624381080, 310598401,
   607225278, 1426881987, 1925078388, 2162078206, 2614888103,
   3248222580, 3835390401, 4022224774, 264347078, 604807628,
   770255983, 1249150122, 1555081692, 1996064986, 2554220882,
   2821834349, 2952996808, 3210313671, 3336571891, 3584528711,
   113926993, 338241895, 666307205, 773529912, 1294757372,
   1396182291, 1695183700, 1986661051, 2177026350, 2456956037,
   2730485921, 2820302411, 3259730800, 3345764771, 3516065817,
   3600352804, 4094571909, 275423344, 430227734, 506948616,
   659060556, 883997877, 958139571, 1322822218, 1537002063,
   1747873779, 1955562222, 2024104815, 2227730452, 2361852424,
   2428436474, 2756734187, 3204031479, 3329325298]

/-- Initial hash value of SHA-256. -/
def sha256H0 : List Nat :=
  [1779033703, 3144134277, 1013904242, 2773480762,
   1359893119, 2600822924, 528734635, 1541459225]

def ch (x y z : Nat) : Nat := w32 ((x &&& y) ^^^ (not32 x &&& z))

def maj (x y z : Nat) : Nat := w32 ((x &&& y) ^^^ (x &&& z) ^^^ (y &&& z))

def bsig0 (x : Nat) : Nat := w32 (rotr 2 x ^^^ rotr 13 x ^^^ rotr 22 x)

def bsig1 (x : Nat) : Nat := w32 (rotr 6 x ^^^ rotr 11 x ^^^ rotr 25 x)

def ssig0 (x : Nat) : Nat := w32 (rotr 7 x ^^^ rotr 18 x ^^^ shr 3 x)

def ssig1 (x : Nat) : Nat := w32 (rotr 17 x ^^^ rotr 19 x ^^^ shr 10 x)

/-- Packs bytes into 32-bit words, big-endian. -/
def bytesToWords : List Nat → List Nat
  | b0 :: b1 :: b2 :: b3 :: rest =>
      (b0 * 16777216 + b1 * 65536 + b2 * 256 + b3) :: bytesToWords rest
  | _ => []

/-- Unpacks a 32-bit word into 4 bytes, big-endian. -/
def wordBytes (w : Nat) : List Nat :=
  [w / 16777216 % 256, w / 65536 % 256, w / 256 % 256, w % 256]

/-- Encodes a (bit-length) counter as 8 big-endian bytes. -/
def len64Bytes (n : Nat) : List Nat :=
  [n / 2^56 % 256, n / 2^48 % 256, n / 2^40 % 256, n / 2^32 % 256,
   n / 2^24 % 256, n / 2^16 % 256, n / 2^8 % 256, n % 256]

/-- Padding step of SHA-256: append `0x80`, zero bytes to 56 mod 64, and the
64-bit big-endian bit length. -/
def sha256Pad (msg : List Nat) : List Nat :=
  let l := msg.length
  let zeros := (55 + 64 - l % 64) % 64
  msg ++ 0x80 :: List.replicate zeros 0 ++ len64Bytes (8 * l)

/-- Extend the 16-word block schedule to 64 words. -/
def extendSchedule : Nat → List Nat → List Nat
  | 0, ws => ws
  | fuel + 1, ws =>
      let n := ws.length
      let w := w32 (ssig1 (ws.getD (n - 2) 0) + ws.getD (n - 7) 0 +
                    ssig0 (ws.getD (n - 15) 0) + ws.getD (n - 16) 0)
      extendSchedule fuel (ws ++ [w])

/-- The eight SHA-256 working variables. -/
structure Hash8 where
  a : Nat
  b : Nat
  c : Nat
  d : Nat
  e : Nat
  f : Nat
  g : Nat
  hh : Nat
deriving Repr, DecidableEq

/-- Performs one SHA-256 compression round. -/
def sha256Round (s : Hash8) (wk : Nat × Nat) : Hash8 :=
  let t1 := w32 (s.hh + bsig1 s.e + ch s.e s.f s.g + wk.2 + wk.1)
  let t2 := w32 (bsig0 s.a + maj s.a s.b s.c)
  ⟨w32 (t1 + t2), s.a, s.b, s.c, w32 (s.d + t1), s.e, s.f, s.g⟩

/-- Compress one 64-byte block into the running hash (8 words). -/
def sha256Block (h : List Nat) (block : List Nat) : List Nat :=
  let ws := extendSchedule 48 (bytesToWords block)
  let init : Hash8 :=
    ⟨h.getD 0 0, h.getD 1 0, h.getD 2 0, h.getD 3 0,
     h.getD 4 0, h.getD 5 0, h.getD 6 0, h.getD 7 0⟩
  let s := (ws.zip sha256K).foldl sha256Round init
  [w32 (h.getD 0 0 + s.a), w32 (h.getD 1 0 + s.b), w32 (h.getD 2 0 + s.c),
   w32 (h.getD 3 0 + s.d), w32 (h.getD 4 0 + s.e), w32 (h.getD 5 0 + s.f),
   w32 (h.getD 6 0 + s.g), w32 (h.getD 7 0 + s.hh)]

/-- Split a byte list into 64-byte blocks (fuel-based so that it reduces
in the kernel; the fuel `bs.length + 1` always suffices). -/
def toBlocksAux : Nat → List Nat → List (List Nat)
  | 0, _ => []
  | fuel + 1, bs =>
      if bs.isEmpty then [] else bs.take 64 :: toBlocksAux fuel (bs.drop 64)

/-- Split a byte list into 64-byte blocks. -/
def toBlocks (bs : List Nat) : List (List Nat) := toBlocksAux (bs.length + 1) bs

/-- Computes the SHA-256 digest of a byte list, as 32 bytes. -/
def sha256 (msg : List Nat) : List Nat :=
  ((toBlocks (sha256Pad msg)).foldl sha256Block sha256H0).flatMap wordBytes

/-! ## HMAC-SHA256 (RFC 2104) -/

/-- Computes the HMAC-SHA256 of `msg` keyed by `key`, as 32 bytes (RFC 2104). -/
def hmacSha256 (key msg : List Nat) : List Nat :=
  let k0 := if key.length > 64 then sha256 key else key
  let kPad := k0 ++ List.replicate (64 - k0.length) 0
  let ipad := kPad.map (fun b => b ^^^ 0x36)
  let opad := kPad.map (fun b => b ^^^ 0x5c)
  sha256 (opad ++ sha256 (ipad ++ msg))

/-- Maps a value below 16 to its lower-case hex digit. -/
def hexDigit (n : Nat) : Char :=
  if n < 10 then Char.ofNat (48 + n) else Char.ofNat (87 + n)

/-- Renders a byte list in lower-case hex. -/
def bytesToHex (bs : List Nat) : String :=
  String.mk (bs.flatMap (fun b => [hexDigit (b / 16), hexDigit (b % 16)]))

/-- Encodes one character as UTF-8 bytes. -/
def utf8Bytes (c : Char) : List Nat :=
  let n := c.toNat
  if n < 0x80 then [n]
  else if n < 0x800 then [0xC0 + n / 64, 0x80 + n % 64]
  else if n < 0x10000 then
    [0xE0 + n / 4096, 0x80 + n / 64 % 64, 0x80 + n % 64]
  else
    [0xF0 + n / 262144, 0x80 + n / 4096 % 64, 0x80 + n / 64 % 64, 0x80 + n % 64]

/-- Encodes a string as UTF-8 bytes. -/
def strBytes (s : String) : List Nat := s.data.flatMap utf8Bytes

/-- Embedding of `crypto.createHmac('sha256', secret).update(msg).digest('hex')`:
the lower-case hex HMAC-SHA256 of `msg` keyed by `secret`, over UTF-8 bytes. -/
def hmacSha256Hex (secret msg : String) : String :=
  bytesToHex (hmacSha256 (strBytes secret) (strBytes msg))

/-! ## Decimal rendering of numbers

Models how a JavaScript number with an integer value is rendered in a
template literal or by `JSON.stringify` (plain decimal digits, and a
leading minus sign for negative values). -/

/-- Decimal digits of a `Nat`, most significant first (fuel-based; the
fuel `n + 1` always suffices since `n / 10 < n` for `n ≥ 10`). -/
def decDigits : Nat → Nat → List Nat
  | 0, _ => []
  | fuel + 1, n => if n < 10 then [n] else decDigits fuel (n / 10) ++ [n % 10]

/-- Renders a `Nat` in decimal, as JavaScript renders an integer number. -/
def decRepr (n : Nat) : String :=
  String.mk ((decDigits (n + 1) n).map (fun d => Char.ofNat (48 + d)))

/-- Renders an integer-valued JavaScript number in decimal. -/
def intRepr (n : Int) : String :=
  if n < 0 then "-" ++ decRepr n.natAbs else decRepr n.natAbs

/-! ## JSON values

The body parser `express.json()` exposes the request body as a parsed
JSON value; the webhook handler re-serializes it with `JSON.stringify`.
`Json`, `JsonList` and `JsonFields` are mutually inductive (instead of
nesting `List`) so that all functions over them are structurally
recursive and reduce in the kernel. Numbers are restricted to integer
values, which covers every payload considered here. -/

mutual

inductive Json where
  | null : Json
  | bool : Bool → Json
  | num : Int → Json
  | str : String → Json
  | arr : JsonList → Json
  | obj : JsonFields → Json

inductive JsonList where
  | nil : JsonList
  | cons : Json → JsonList → JsonList

inductive JsonFields where
  | nil : JsonFields
  | cons : String → Json → JsonFields → JsonFields

end

/-- Escapes one character inside a JSON string literal exactly as
`JSON.stringify` does. -/
def jsonEscapeChar (c : Char) : List Char :=
  if c = '"' then ['\\', '"']
  else if c = '\\' then ['\\', '\\']
  else if c.toNat = 8 then ['\\', 'b']
  else if c.toNat = 9 then ['\\', 't']
  else if c.toNat = 10 then ['\\', 'n']
  else if c.toNat = 12 then ['\\', 'f']
  else if c.toNat = 13 then ['\\', 'r']
  else if c.toNat < 32 then
    ['\\', 'u', '0', '0', hexDigit (c.toNat / 16), hexDigit (c.toNat % 16)]
  else [c]

/-- Quotes a string as a JSON string literal, as `JSON.stringify` does. -/
def jsonQuote (s : String) : String :=
  "\"" ++ String.mk (s.data.flatMap jsonEscapeChar) ++ "\""

mutual

/-- Embedding of `JSON.stringify` on parsed JSON values: compact output,
fields in insertion order. -/
def Json.stringify : Json → String
  | .null => "null"
  | .bool true => "true"
  | .bool false => "false"
  | .num n => intRepr n
  | .str s => jsonQuote s
  | .arr xs => "[" ++ JsonList.stringifyItems xs ++ "]"
  | .obj fs => "\x7b" ++ JsonFields.stringifyFields fs ++ "\x7d"

/-- Serializes array items, comma-separated. -/
def JsonList.stringifyItems : JsonList → String
  | .nil => ""
  | .cons j .nil => j.stringify
  | .cons j tl => j.stringify ++ "," ++ tl.stringifyItems

/-- Serializes object fields, comma-separated. -/
def JsonFields.stringifyFields : JsonFields → String
  | .nil => ""
  | .cons k v .nil => jsonQuote k ++ ":" ++ v.stringify
  | .cons k v tl => jsonQuote k ++ ":" ++ v.stringify ++ "," ++ tl.stringifyFields

end

/-- Looks a key up among object fields (keys are unique after parsing). -/
def JsonFields.lookup : JsonFields → String → Option Json
  | .nil, _ => none
  | .cons k v tl, key => if k = key then some v else tl.lookup key

/-- Embedding of a JavaScript property access `o[key]` on a parsed JSON
value: `none` stands for `undefined` (also when `o` is not an object). -/
def Json.getField : Json → String → Option Json
  | .obj fs, key => fs.lookup key
  | _, _ => none

/-- Removes every field with the given key. -/
def JsonFields.removeKey : JsonFields → String → JsonFields
  | .nil, _ => .nil
  | .cons k v tl, key =>
      if k = key then tl.removeKey key else .cons k v (tl.removeKey key)

/-- Prepends a field to already-parsed later fields with the duplicate-key
behaviour of `JSON.parse`: the last value wins, the first position is
kept. -/
def JsonFields.addFirst (k : String) (v : Json) (fs : JsonFields) : JsonFields :=
  match fs.lookup k with
  | some v' => .cons k v' (fs.removeKey k)
  | none => .cons k v fs

/-! ## JSON parsing

Embedding of `JSON.parse` as used by `express.json()` on the raw request
body, restricted to what the payloads considered here use: `null`,
booleans, integer numbers, strings with the standard single-character
escapes, arrays and objects, with insignificant whitespace. Parsing is
fuel-based (the input length bounds the recursion depth) so that it
reduces in the kernel. -/

/-- Is the character JSON insignificant whitespace? -/
def isJsonWs (c : Char) : Bool :=
  c = ' ' || c.toNat = 9 || c.toNat = 10 || c.toNat = 13

/-- Drops leading JSON whitespace. -/
def skipWs (cs : List Char) : List Char := cs.dropWhile isJsonWs

/-- Is the character a decimal digit? -/
def isDigitChar (c : Char) : Bool := 48 ≤ c.toNat && c.toNat ≤ 57

/-- Numeric value of a decimal digit list, most significant first. -/
def digitsVal (ds : List Char) : Nat :=
  ds.foldl (fun acc c => 10 * acc + (c.toNat - 48)) 0

/-- Parses the body of a JSON string literal after the opening quote,
returning the characters and the rest after the closing quote. -/
def parseStringBody : Nat → List Char → Option (List Char × List Char)
  | 0, _ => none
  | _, [] => none
  | fuel + 1, c :: rest =>
      if c = '"' then some ([], rest)
      else if c = '\\' then
        match rest with
        | [] => none
        | e :: rest' =>
            let dec : Option Char :=
              if e = '"' then some '"'
              else if e = '\\' then some '\\'
              else if e = '/' then some '/'
              else if e = 'b' then some (Char.ofNat 8)
              else if e = 't' then some (Char.ofNat 9)
              else if e = 'n' then some (Char.ofNat 10)
              else if e = 'f' then some (Char.ofNat 12)
              else if e = 'r' then some (Char.ofNat 13)
              else none
            match dec with
            | none => none
            | some d =>
                match parseStringBody fuel rest' with
                | some (cs, rem) => some (d :: cs, rem)
                | none => none
      else
        match parseStringBody fuel rest with
        | some (cs, rem) => some (c :: cs, rem)
        | none => none

mutual

/-- Parses one JSON value from the input (leading whitespace allowed). -/
def parseValue : Nat → List Char → Option (Json × List Char)
  | 0, _ => none
  | fuel + 1, cs =>
      match skipWs cs with
      | [] => none
      | c :: rest =>
          if c = 'n' then
            match rest with
            | 'u' :: 'l' :: 'l' :: rem => some (.null, rem)
            | _ => none
          else if c = 't' then
            match rest with
            | 'r' :: 'u' :: 'e' :: rem => some (.bool true, rem)
            | _ => none
          else if c = 'f' then
            match rest with
            | 'a' :: 'l' :: 's' :: 'e' :: rem => some (.bool false, rem)
            | _ => none
          else if c = '"' then
            match parseStringBody (rest.length + 1) rest with
            | some (body, rem) => some (.str (String.mk body), rem)
            | none => none
          else if c = '-' then
            match rest.takeWhile isDigitChar with
            | [] => none
            | ds => some (.num (-(digitsVal ds : Int)), rest.dropWhile isDigitChar)
          else if isDigitChar c then
            some (.num (digitsVal (c :: rest.takeWhile isDigitChar)),
                  rest.dropWhile isDigitChar)
          else if c = '[' then
            match skipWs rest with
            | ']' :: rem => some (.arr .nil, rem)
            | _ =>
                match parseItems fuel rest with
                | some (xs, rem) => some (.arr xs, rem)
                | none => none
          else if c = '\x7b' then
            match skipWs rest with
            | '\x7d' :: rem => some (.obj .nil, rem)
            | _ =>
                match parseFields fuel rest with
                | some (fs, rem) => some (.obj fs, rem)
                | none => none
          else none

/-- Parses the items of a non-empty array after `[` or `,`. -/
def parseItems : Nat → List Char → Option (JsonList × List Char)
  | 0, _ => none
  | fuel + 1, cs =>
      match parseValue fuel cs with
      | none => none
      | some (j, rem) =>
          match skipWs rem with
          | ',' :: rem' =>
              match parseItems fuel rem' with
              | some (tl, rem'') => some (.cons j tl, rem'')
              | none => none
          | ']' :: rem' => some (.cons j .nil, rem')
          | _ => none

/-- Parses the fields of a non-empty object after an opening brace or `,`. -/
def parseFields : Nat → List Char → Option (JsonFields × List Char)
  | 0, _ => none
  | fuel + 1, cs =>
      match skipWs cs with
      | '"' :: rest =>
          match parseStringBody (rest.length + 1) rest with
          | none => none
          | some (key, rem) =>
              match skipWs rem with
              | ':' :: rem' =>
                  match parseValue fuel rem' with
                  | none => none
                  | some (v, rem'') =>
                      match skipWs rem'' with
                      | ',' :: rem3 =>
                          match parseFields fuel rem3 with
                          | some (tl, rem4) =>
                              some (JsonFields.addFirst (String.mk key) v tl, rem4)
                          | none => none
                      | '\x7d' :: rem3 =>
                          some (.cons (String.mk key) v .nil, rem3)
                      | _ => none
              | _ => none
      | _ => none

end

/-- Embedding of `JSON.parse` on a request body: parses one value and
requires only whitespace to remain. The fuel `2 * length + 2` bounds the
recursion depth of any successful parse. -/
def jsonParse (s : String) : Option Json :=
  match parseValue (2 * s.length + 2) s.data with
  | some (j, rem) => if (skipWs rem).isEmpty then some j else none
  | none => none

/-! ## The webhook endpoint (`app.post('/api/webhook')`)

The handler recomputes an HMAC over `JSON.stringify(req.body)` — the
re-serialization of the body that `express.json()` parsed — compares it
with the `x-paystack-signature` header (`none` models an absent header),
and on success dispatches on the `event` field. -/

/-- Which webhook branch ran: the two recognized tags or the `default`
branch of the `switch`. -/
inductive WebhookHandler where
  | chargeSuccess : WebhookHandler
  | chargeFailed : WebhookHandler
  | unhandled : WebhookHandler
deriving DecidableEq, Repr

/-- Observable outcome of the webhook endpoint: HTTP status, response
body, and which handler (if any) the event was dispatched to. -/
structure WebhookResult where
  status : Nat
  body : String
  dispatched : Option WebhookHandler
deriving DecidableEq, Repr

/-- Embedding of the `switch (event.event)` statement of the webhook
handler: exact string match on the recognized tags, `default` otherwise. -/
def dispatchEvent (body : Json) : WebhookHandler :=
  match body.getField "event" with
  | some (.str s) =>
      if s = "charge.success" then WebhookHandler.chargeSuccess
      else if s = "charge.failed" then WebhookHandler.chargeFailed
      else WebhookHandler.unhandled
  | _ => WebhookHandler.unhandled

/-- Embedding of the `app.post('/api/webhook')` handler from
`src/server.js`. `body` is the parsed request body (`req.body`) and
`sigHeader` the value of the `x-paystack-signature` header. -/
def webhookHandler (secret : String) (body : Json) (sigHeader : Option String) :
    WebhookResult :=
  if sigHeader = some (hmacSha256Hex secret body.stringify) then
    ⟨200, "Webhook received", some (dispatchEvent body)⟩
  else
    ⟨400, "Invalid signature", none⟩

/-! ## Loosely-typed request fields

Fields destructured from `req.body` are arbitrary JavaScript values.
`JSVal` models the fragment needed here: `undefined`, `null`, `NaN`,
integer-valued numbers and strings. `jsTruthy` is JavaScript truthiness
(the meaning of `!x` in the handler's validation) and `jsToNumber` the
numeric coercion performed by `*`, restricted to integer literals. -/

inductive JSVal where
  | undef : JSVal
  | null : JSVal
  | nan : JSVal
  | num : Int → JSVal
  | str : String → JSVal
deriving DecidableEq, Repr

/-- JavaScript truthiness of a value. -/
def jsTruthy : JSVal → Bool
  | .undef => false
  | .null => false
  | .nan => false
  | .num n => n != 0
  | .str s => s != ""

/-- Is the character trimmed by JavaScript's string-to-number coercion? -/
def isJsSpace (c : Char) : Bool := isJsonWs c

/-- Coerces a string to a number as JavaScript's `ToNumber` does,
restricted to (optionally signed) decimal integer literals; every other
non-blank string coerces to `NaN`. -/
def jsStrToNumber (s : String) : JSVal :=
  let cs := ((s.data.dropWhile isJsSpace).reverse.dropWhile isJsSpace).reverse
  match cs with
  | [] => .num 0
  | '-' :: ds =>
      if !ds.isEmpty && ds.all isDigitChar then .num (-(digitsVal ds : Int))
      else .nan
  | ds => if ds.all isDigitChar then .num (digitsVal ds) else .nan

/-- Coerces a JavaScript value to a number (`ToNumber`). -/
def jsToNumber : JSVal → JSVal
  | .num n => .num n
  | .nan => .nan
  | .undef => .nan
  | .null => .num 0
  | .str s => jsStrToNumber s

/-- Embedding of JavaScript multiplication `v * m` for an integer `m`. -/
def jsMul (v : JSVal) (m : Int) : JSVal :=
  match jsToNumber v with
  | .num n => .num (n * m)
  | _ => .nan

/-! ## Reference generation

Embedding of the template literal

  ref_<Date.now()>_<Math.random().toString(36).substr(2, 9)>

from the initialize-payment handler. `Math.random()` is modelled as the
double `k / 2^53` with `k < 2^53` an explicit parameter. `toString(36)`
renders `0` as `"0"` and any other value as `"0."` followed by the
base-36 expansion of the fraction; the expansion of `k / 2^53` is exact
within 27 digits (`2^53` divides `36^27`), and only its first 9 digits
survive `substr(2, 9)`. -/

/-- Maps a value below 36 to its base-36 digit character. -/
def base36digit (d : Nat) : Char :=
  if d < 10 then Char.ofNat (48 + d) else Char.ofNat (87 + d)

/-- Base-36 fractional digits of `k / 2^53`, most significant first,
stopping when the remainder is zero. -/
def frac36Digits : Nat → Nat → List Nat
  | 0, _ => []
  | fuel + 1, k =>
      if k = 0 then []
      else (36 * k) / 2 ^ 53 :: frac36Digits fuel ((36 * k) % 2 ^ 53)

/-- Embedding of `Math.random().toString(36)` for the draw `k / 2^53`. -/
def randomToString36 (k : Nat) : String :=
  if k = 0 then "0"
  else "0." ++ String.mk ((frac36Digits 27 k).map base36digit)

/-- Embedding of `String.prototype.substr(start, len)`, character-wise
over the string's characters. -/
def jsSubstr (s : String) (start len : Nat) : String :=
  String.mk ((s.data.drop start).take len)

/-- Embedding of `Math.random().toString(36).substr(2, 9)`. -/
def randomSuffix (k : Nat) : String := jsSubstr (randomToString36 k) 2 9

/-- Embedding of the generated reference
`ref_<Date.now()>_<random suffix>`. -/
def genReference (now k : Nat) : String :=
  "ref_" ++ decRepr now ++ "_" ++ randomSuffix k

/-! ## The initialize-payment endpoint (`app.post('/api/initialize-payment')`)

The handler destructures `email`, `amount`, `currency` (default `'NGN'`)
and `reference` from the body, rejects with 400 when `!email || !amount`,
and otherwise forwards `paymentData` to the processor with the amount
multiplied by 100 and a generated reference when none was supplied. -/

/-- Response envelope of a validation failure (`{status:false, message}`). -/
structure Envelope where
  status : Bool
  message : String
deriving DecidableEq, Repr

/-- Request body fields of the initialize-payment endpoint; `currency` is
`none` when absent (so the destructuring default `'NGN'` applies). -/
structure InitBody where
  email : JSVal
  amount : JSVal
  currency : Option String
  reference : JSVal
deriving DecidableEq, Repr

/-- The `paymentData` object forwarded to the processor. -/
structure PaymentData where
  email : JSVal
  amount : JSVal
  currency : String
  reference : JSVal
  callback_url : String
deriving DecidableEq, Repr

/-- Outcome of the validation-and-forwarding stage of the endpoint:
either an immediate 400 with no outbound call, or the outbound call with
its payload. -/
inductive InitOutcome where
  | rejected : Nat → Envelope → InitOutcome
  | forwarded : PaymentData → InitOutcome
deriving DecidableEq, Repr

/-- Embedding of the validation-and-forwarding stage of
`app.post('/api/initialize-payment')`. `now` is `Date.now()` and `k` the
`Math.random()` draw; `protocol` and `host` come from the request. -/
def initializePayment (b : InitBody) (protocol host : String) (now k : Nat) :
    InitOutcome :=
  if !jsTruthy b.email || !jsTruthy b.amount then
    .rejected 400 ⟨false, "Email and amount are required"⟩
  else
    .forwarded
      { email := b.email
        amount := jsMul b.amount 100
        currency := b.currency.getD "NGN"
        reference :=
          if jsTruthy b.reference then b.reference
          else .str (genReference now k)
        callback_url := protocol ++ "://" ++ host ++ "/payment-callback" }

/-! ## Upstream failures and the catch blocks of the proxy endpoints

Each proxy endpoint awaits one `axios` call inside `try { ... } catch`;
the catch block always answers
`res.status(500).json({status:false, message, error})` with
`error: error.response?.data?.message || error.message`. An axios error
carries the upstream response body when the processor answered non-2xx
(`responseData = some body`) and only a transport message otherwise. -/

/-- JavaScript truthiness of a parsed JSON value. -/
def jsonTruthy : Json → Bool
  | .null => false
  | .bool b => b
  | .num n => n != 0
  | .str s => s != ""
  | .arr _ => true
  | .obj _ => true

/-- An `axios` failure: `responseData` is `error.response?.data` (present
exactly when the processor answered with a non-2xx response),
`message` is `error.message`. -/
structure AxiosError where
  responseData : Option Json
  message : String

/-- Embedding of `error.response?.data?.message || error.message`. -/
def upstreamErrorField (e : AxiosError) : Json :=
  match e.responseData with
  | some d =>
      match d.getField "message" with
      | some m => if jsonTruthy m then m else .str e.message
      | none => .str e.message
  | none => .str e.message

/-- Failure envelope `{status:false, message, error}` of a catch block. -/
structure ErrorEnvelope where
  status : Bool
  message : String
  error : Json

/-- Success envelope `{status:true, data, meta?}` of a proxy endpoint. -/
structure SuccessEnvelope where
  status : Bool
  data : Option Json
  meta : Option Json

/-- Response of a proxy endpoint: `res.json({status:true, ...})` (HTTP
200) or `res.status(500).json({status:false, ...})`. -/
inductive ApiResponse where
  | ok : SuccessEnvelope → ApiResponse
  | err : Nat → ErrorEnvelope → ApiResponse

/-- Outcome of the awaited `axios` call: the upstream response body, or a
failure (non-2xx response, network error, malformed response). -/
inductive UpstreamOutcome where
  | ok : Json → UpstreamOutcome
  | fail : AxiosError → UpstreamOutcome

/-- Embedding of the try/catch completion of
`app.post('/api/initialize-payment')` around its `axios` call. -/
def initializeRespond (up : UpstreamOutcome) : ApiResponse :=
  match up with
  | .ok d => .ok ⟨true, d.getField "data", none⟩
  | .fail e => .err 500 ⟨false, "Failed to initialize payment", upstreamErrorField e⟩

/-- Embedding of the try/catch completion of
`app.get('/api/verify-payment/:reference')` around its `axios` call. -/
def verifyRespond (up : UpstreamOutcome) : ApiResponse :=
  match up with
  | .ok d => .ok ⟨true, d.getField "data", none⟩
  | .fail e => .err 500 ⟨false, "Failed to verify payment", upstreamErrorField e⟩

/-- Embedding of the try/catch completion of
`app.get('/api/transactions')` around its `axios` call. -/
def transactionsRespond (up : UpstreamOutcome) : ApiResponse :=
  match up with
  | .ok d => .ok ⟨true, d.getField "data", d.getField "meta"⟩
  | .fail e => .err 500 ⟨false, "Failed to fetch transactions", upstreamErrorField e⟩

/-! ## The payment-callback endpoint (`app.get('/payment-callback')`)

The handler destructures `reference` and `trxref` from the query and
redirects to a template literal; an absent query parameter is
`undefined`, which a template literal renders as the text `undefined`. -/

/-- Renders a possibly-absent value inside a template literal. -/
def jsTemplateOpt : Option String → String
  | some s => s
  | none => "undefined"

/-- Embedding of `a || b` on two possibly-absent query-string values. -/
def jsOrQuery (a b : Option String) : Option String :=
  match a with
  | some s => if s = "" then b else some s
  | none => b

/-- Embedding of the `app.get('/payment-callback')` handler: the target
of the `res.redirect` call. -/
def paymentCallback (reference trxref : Option String) : String :=
  "/?reference=" ++ jsTemplateOpt (jsOrQuery reference trxref) ++ "&status=success"

/-! ## The transactions listing endpoint (`app.get('/api/transactions')`)

The handler destructures `page = 1` and `perPage = 10` from the query
(defaults apply only when the parameter is absent) and interpolates both
into the outbound URL with no escaping. -/

/-- Applies a destructuring default to a query parameter. -/
def queryDefault (v : Option String) (dflt : String) : String := v.getD dflt

/-- Embedding of the outbound URL template literal of
`app.get('/api/transactions')`. -/
def transactionsURL (page perPage : Option String) : String :=
  "https://api.paystack.co/transaction?page=" ++ queryDefault page "1" ++
    "&perPage=" ++ queryDefault perPage "10"

/-- Returns the characters after the first occurrence of `c`. -/
def afterChar (c : Char) : List Char → Option (List Char)
  | [] => none
  | x :: xs => if x = c then some xs else afterChar c xs

/-- Splits a character list on a separator character. -/
def splitOnChar (c : Char) : List Char → List (List Char)
  | [] => [[]]
  | x :: xs =>
      let r := splitOnChar c xs
      if x = c then [] :: r
      else
        match r with
        | [] => [[x]]
        | y :: ys => (x :: y) :: ys

/-- The `key=value` components of the query string of a URL: everything
after the first `?`, split on `&`. -/
def queryParams (url : String) : List String :=
  match afterChar '?' url.data with
  | some q => (splitOnChar '&' q).map String.mk
  | none => []

/-! # Theorems -/

/-! ## C2 — signature mismatch is rejected and never dispatched -/

/-- C2: whenever the supplied signature header differs from the digest
the handler computes (including when the header is absent), the webhook
endpoint answers HTTP 400 with the plain-text body `Invalid signature`
and no event handler is reached (`dispatched = none`). -/
theorem webhook_mismatch_rejected_undispatched (secret : String) (body : Json)
    (sig : Option String) (h : sig ≠ some (hmacSha256Hex secret body.stringify)) :
    webhookHandler secret body sig = ⟨400, "Invalid signature", none⟩ := by
  unfold webhookHandler
  rw [if_neg h]

/-- Witness for C2: an absent signature header on a concrete body is
answered 400 with no dispatch. -/
theorem webhook_mismatch_rejected_undispatched_witness :
    webhookHandler "sk_test_secret" (Json.obj .nil) none =
      ⟨400, "Invalid signature", none⟩ :=
  webhook_mismatch_rejected_undispatched "sk_test_secret" (Json.obj .nil) none
    (by simp)

/-! ## C3 — verified events are dispatched by exact string match -/

/-- C3: a webhook request whose signature header equals the handler's
computed digest is answered HTTP 200 with body `Webhook received`, and
the event is routed by exact string match on the `event` field:
`charge.success` to the success handler, `charge.failed` to the failed
handler, and anything else to the default handler. -/
theorem webhook_verified_dispatch (secret : String) (body : Json) :
    webhookHandler secret body (some (hmacSha256Hex secret body.stringify)) =
      ⟨200, "Webhook received", some (dispatchEvent body)⟩ ∧
    (body.getField "event" = some (.str "charge.success") →
      dispatchEvent body = .chargeSuccess) ∧
    (body.getField "event" = some (.str "charge.failed") →
      dispatchEvent body = .chargeFailed) ∧
    (body.getField "event" ≠ some (.str "charge.success") →
      body.getField "event" ≠ some (.str "charge.failed") →
      dispatchEvent body = .unhandled) := by
  refine ⟨by unfold webhookHandler; rw [if_pos rfl], ?_, ?_, ?_⟩
  · intro h; unfold dispatchEvent; rw [h]; rfl
  · intro h; unfold dispatchEvent; rw [h]; rfl
  · intro h1 h2
    unfold dispatchEvent
    cases hev : body.getField "event" with
    | none => rfl
    | some j =>
        cases j with
        | str s =>
            have hs1 : ¬s = "charge.success" := fun hs => h1 (by rw [hev, hs])
            have hs2 : ¬s = "charge.failed" := fun hs => h2 (by rw [hev, hs])
            simp [hs1, hs2]
        | null => rfl
        | bool b => rfl
        | num n => rfl
        | arr xs => rfl
        | obj fs => rfl

/-- Concrete verified `charge.success` event used by the C3 witness. -/
def chargeSuccessBody : Json :=
  .obj (.cons "event" (.str "charge.success") (.cons "data" (.obj .nil) .nil))

set_option maxRecDepth 100000 in
/-- Witness for C3: a correctly signed `charge.success` event is
acknowledged 200 and routed to the success handler. -/
theorem webhook_verified_dispatch_witness :
    webhookHandler "sk_test_secret" chargeSuccessBody
        (some (hmacSha256Hex "sk_test_secret" chargeSuccessBody.stringify)) =
      ⟨200, "Webhook received", some .chargeSuccess⟩ := by
  have h := webhook_verified_dispatch "sk_test_secret" chargeSuccessBody
  have hd : dispatchEvent chargeSuccessBody = .chargeSuccess := h.2.1 (by rfl)
  rw [h.1, hd]

/-! ## C4 — accepted amounts are forwarded in minor units -/

/-- C4: every accepted numeric amount `n` (with a truthy email) is
forwarded to the processor as exactly `n * 100`, the minor-unit value —
never the original major-unit value. The conversion appears exactly once,
in the forwarded `paymentData`. -/
theorem initialize_amount_minor_units (email : JSVal) (n : Int) (cur : Option String)
    (r : JSVal) (protocol host : String) (now k : Nat)
    (he : jsTruthy email = true) (hn : n ≠ 0) :
    ∃ pd : PaymentData,
      initializePayment ⟨email, .num n, cur, r⟩ protocol host now k = .forwarded pd ∧
      pd.amount = .num (n * 100) ∧ pd.amount ≠ .num n := by
  have ha : jsTruthy (JSVal.num n) = true := by simpa [jsTruthy] using hn
  refine ⟨⟨email, jsMul (.num n) 100, cur.getD "NGN",
      if jsTruthy r then r else .str (genReference now k),
      protocol ++ "://" ++ host ++ "/payment-callback"⟩, ?_, rfl, ?_⟩
  · unfold initializePayment
    rw [he, ha]
    rfl
  · intro hcontra
    have h100 : n * 100 = n := by
      have := JSVal.num.inj hcontra
      simpa [jsMul, jsToNumber] using this
    exact hn (by omega)

/-- Witness for C4: a concrete accepted request with amount 50 forwards
5000 to the processor. -/
theorem initialize_amount_minor_units_witness :
    ∃ pd : PaymentData,
      initializePayment ⟨.str "customer@example.com", .num 50, none, .undef⟩
          "https" "shop.example" 1700000000000 1 = .forwarded pd ∧
      pd.amount = .num (50 * 100) ∧ pd.amount ≠ .num 50 :=
  initialize_amount_minor_units (.str "customer@example.com") 50 none .undef
    ("https") "shop.example" 1700000000000 1 (by decide) (by decide)

/-! ## C5 — missing, empty or zero fields are rejected with no call -/

/-- C5: when email or amount is missing (`undefined`), empty, or zero,
the initialize-payment endpoint answers HTTP 400 with
`{status:false, message}` and the outcome is `rejected`, so no outbound
call to the processor is made. -/
theorem initialize_validation_rejects (b : InitBody) (protocol host : String)
    (now k : Nat)
    (h : b.email = .undef ∨ b.email = .str "" ∨ b.email = .num 0 ∨
         b.amount = .undef ∨ b.amount = .str "" ∨ b.amount = .num 0) :
    initializePayment b protocol host now k =
      .rejected 400 ⟨false, "Email and amount are required"⟩ := by
  have hc : (!jsTruthy b.email || !jsTruthy b.amount) = true := by
    rcases h with h | h | h | h | h | h <;> simp [h, jsTruthy]
  unfold initializePayment
  simp [hc]

/-- Witness for C5: omitting the email on a concrete request yields the
400 validation envelope. -/
theorem initialize_validation_rejects_witness :
    initializePayment ⟨.undef, .num 50, none, .undef⟩ "https" "shop.example"
        1700000000000 1 =
      .rejected 400 ⟨false, "Email and amount are required"⟩ :=
  initialize_validation_rejects ⟨.undef, .num 50, none, .undef⟩ "https"
    "shop.example" 1700000000000 1 (Or.inl rfl)

/-! ## C6 — what the validation actually rejects -/

set_option maxRecDepth 10000 in
/-- Counterexample to C6: a request with the negative amount `-5` (and a
valid email) is not rejected as a `ValidationError`; it passes the
truthiness check and is forwarded to the processor with amount `-500`. -/
theorem initialize_negative_amount_forwarded :
    initializePayment ⟨.str "a@b.c", .num (-5), none, .undef⟩ "https"
        "shop.example" 1700000000000 1 =
      .forwarded ⟨.str "a@b.c", .num (-500), "NGN",
        .str "ref_1700000000000_000000000",
        "https://shop.example/payment-callback"⟩ := by
  decide

/-- C6 (amended): the gateway rejects a request exactly when email or
amount is falsy (missing, empty string, zero, `null` or `NaN`); any
truthy amount — including negative numbers and non-numeric strings —
passes validation and is forwarded to the processor. -/
theorem initialize_rejected_iff_falsy (b : InitBody) (protocol host : String)
    (now k : Nat) :
    (∃ s env, initializePayment b protocol host now k =
      InitOutcome.rejected s env) ↔
      (jsTruthy b.email = false ∨ jsTruthy b.amount = false) := by
  cases he : jsTruthy b.email with
  | false =>
      constructor
      · intro _; exact Or.inl rfl
      · intro _
        exact ⟨400, ⟨false, "Email and amount are required"⟩, by
          unfold initializePayment; rw [he]; rfl⟩
  | true =>
      cases ha : jsTruthy b.amount with
      | false =>
          constructor
          · intro _; exact Or.inr rfl
          · intro _
            exact ⟨400, ⟨false, "Email and amount are required"⟩, by
              unfold initializePayment; rw [he, ha]; rfl⟩
      | true =>
          constructor
          · rintro ⟨s, env, hout⟩
            unfold initializePayment at hout
            rw [he, ha] at hout
            simp at hout
          · rintro (h | h) <;> simp at h

/-! ## C8 — upstream failures become uniform 500 envelopes -/

/-- C8: whenever the upstream processor call of any of the three proxy
endpoints fails, the endpoint answers HTTP 500 with
`{status:false, message, error}`, where the error field is the
processor's own `message` whenever the upstream response carries a
truthy one, and the transport error message otherwise. The respond
functions are total, so no failure escapes unhandled. -/
theorem proxy_upstream_failure_envelope (e : AxiosError) (d : Json) (m : String) :
    initializeRespond (.fail e) =
      .err 500 ⟨false, "Failed to initialize payment", upstreamErrorField e⟩ ∧
    verifyRespond (.fail e) =
      .err 500 ⟨false, "Failed to verify payment", upstreamErrorField e⟩ ∧
    transactionsRespond (.fail e) =
      .err 500 ⟨false, "Failed to fetch transactions", upstreamErrorField e⟩ ∧
    (e.responseData = some d → d.getField "message" = some (.str m) → m ≠ "" →
      upstreamErrorField e = .str m) ∧
    (e.responseData = none → upstreamErrorField e = .str e.message) := by
  refine ⟨rfl, rfl, rfl, ?_, ?_⟩
  · intro h1 h2 h3
    unfold upstreamErrorField
    rw [h1]
    simp [h2, jsonTruthy, h3]
  · intro h1
    unfold upstreamErrorField
    rw [h1]

/-- Concrete upstream failure used by the C8 witness: the processor
answered non-2xx with its own message in the body. -/
def axiosError401 : AxiosError :=
  ⟨some (Json.obj (.cons "message" (.str "Invalid key") .nil)),
   "Request failed with status code 401"⟩

/-- Witness for C8: a concrete upstream failure produces the 500 envelope
carrying the processor's own message. -/
theorem proxy_upstream_failure_envelope_witness :
    initializeRespond (.fail axiosError401) =
      .err 500 ⟨false, "Failed to initialize payment", .str "Invalid key"⟩ := by
  have h := proxy_upstream_failure_envelope axiosError401
    (Json.obj (.cons "message" (.str "Invalid key") .nil)) "Invalid key"
  have he : upstreamErrorField axiosError401 = .str "Invalid key" :=
    h.2.2.2.1 rfl rfl (by decide)
  rw [h.1, he]

/-! ## C9 — the payment callback redirects with the reference -/

/-- C9: a callback request carrying a non-empty reference `r` — in the
`reference` query parameter, or in `trxref` with `reference` absent — is
redirected to the root path `/?reference=<r>&status=success`, whose query
string carries the reference and the literal `status=success` flag. The
redirect target is computed from the query alone; no verification call is
involved. -/
theorem payment_callback_redirects (r : String) (t : Option String) (h : r ≠ "") :
    paymentCallback (some r) t = "/?reference=" ++ r ++ "&status=success" ∧
    paymentCallback none (some r) = "/?reference=" ++ r ++ "&status=success" := by
  constructor
  · simp [paymentCallback, jsOrQuery, jsTemplateOpt, h]
  · rfl

/-- Witness for C9: the reference `abc123` redirects to
`/?reference=abc123&status=success`. -/
theorem payment_callback_redirects_witness :
    paymentCallback (some "abc123") none =
      "/?reference=" ++ "abc123" ++ "&status=success" :=
  (payment_callback_redirects "abc123" none (by decide)).1

/-! ## C10 — the transactions URL is unescaped concatenation -/

/-- C10: the outbound URL of the transactions listing is built by direct
unescaped concatenation around the `page` and `perPage` query values
(defaulting to `1` and `10` when absent); consequently a `page` value
containing `&` smuggles caller-chosen extra query parameters into the
outbound request, as the concrete instance shows. -/
theorem transactions_url_concatenation (p pp : Option String) :
    transactionsURL p pp =
      "https://api.paystack.co/transaction?page=" ++ queryDefault p "1" ++
        "&perPage=" ++ queryDefault pp "10" ∧
    transactionsURL none none =
      "https://api.paystack.co/transaction?page=1&perPage=10" ∧
    queryParams (transactionsURL (some "1&injected=evil") (some "10")) =
      ["page=1", "injected=evil", "perPage=10"] := by
  refine ⟨rfl, by decide, by decide⟩

/-! ## C7 — shape and distinctness of generated references -/

/-- Numeric value of a big-endian decimal digit list. -/
def decVal (ds : List Nat) : Nat := ds.foldl (fun acc d => 10 * acc + d) 0

theorem decVal_append (ds : List Nat) (d : Nat) :
    decVal (ds ++ [d]) = 10 * decVal ds + d := by
  simp [decVal, List.foldl_append]

theorem decDigits_lt10 : ∀ fuel n d, d ∈ decDigits fuel n → d < 10 := by
  intro fuel
  induction fuel with
  | zero => intro n d hd; simp [decDigits] at hd
  | succ fuel ih =>
      intro n d hd
      by_cases h10 : n < 10
      · simp only [decDigits, if_pos h10, List.mem_singleton] at hd
        omega
      · simp only [decDigits, if_neg h10, List.mem_append, List.mem_singleton] at hd
        rcases hd with hd | hd
        · exact ih _ _ hd
        · subst hd; exact Nat.mod_lt _ (by omega)

theorem decVal_decDigits : ∀ n fuel, n ≤ fuel → decVal (decDigits (fuel + 1) n) = n := by
  intro n
  induction n using Nat.strong_induction_on with
  | _ n ih =>
      intro fuel hle
      by_cases h10 : n < 10
      · simp only [decDigits, if_pos h10]
        simp [decVal]
      · simp only [decDigits, if_neg h10]
        obtain ⟨f, rfl⟩ : ∃ f, fuel = f + 1 := ⟨fuel - 1, by omega⟩
        rw [decVal_append]
        have hdiv : n / 10 < n := Nat.div_lt_self (by omega) (by omega)
        rw [ih (n / 10) hdiv f (by omega)]
        omega

theorem char_digit_toNat : ∀ d, d < 10 → (Char.ofNat (48 + d)).toNat - 48 = d := by
  decide

theorem char_digit_ne_underscore : ∀ d, d < 10 → Char.ofNat (48 + d) ≠ '_' := by
  decide


theorem map_digitChar_inv : ∀ ds : List Nat, (∀ d ∈ ds, d < 10) →
    (ds.map (fun d => Char.ofNat (48 + d))).map (fun c => c.toNat - 48) = ds := by
  intro ds
  induction ds with
  | nil => intro _; rfl
  | cons d tl ih =>
      intro h
      have hd : d < 10 := h d (List.mem_cons_self d tl)
      have htl := ih (fun x hx => h x (List.mem_cons_of_mem _ hx))
      simp only [List.map_cons, htl]
      rw [char_digit_toNat d hd]

theorem decRepr_inj {m n : Nat}
    (h : (decRepr m).data = (decRepr n).data) : m = n := by
  have hdt : (decDigits (m + 1) m).map (fun d => Char.ofNat (48 + d)) =
      (decDigits (n + 1) n).map (fun d => Char.ofNat (48 + d)) := h
  have hm := map_digitChar_inv (decDigits (m + 1) m)
    (fun d hd => decDigits_lt10 _ _ d hd)
  have hn := map_digitChar_inv (decDigits (n + 1) n)
    (fun d hd => decDigits_lt10 _ _ d hd)
  have hds : decDigits (m + 1) m = decDigits (n + 1) n := by
    rw [← hm, ← hn, hdt]
  have hv := congrArg decVal hds
  rwa [decVal_decDigits m m le_rfl, decVal_decDigits n n le_rfl] at hv

theorem decRepr_no_underscore (n : Nat) : ∀ c ∈ (decRepr n).data, c ≠ '_' := by
  intro c hc
  have hc' : c ∈ (decDigits (n + 1) n).map (fun d => Char.ofNat (48 + d)) := hc
  obtain ⟨d, hd, rfl⟩ := List.mem_map.mp hc'
  exact char_digit_ne_underscore d (decDigits_lt10 _ _ d hd)

theorem underscore_split : ∀ a b s t : List Char,
    (∀ c ∈ a, c ≠ '_') → (∀ c ∈ b, c ≠ '_') →
    a ++ '_' :: s = b ++ '_' :: t → a = b ∧ s = t := by
  intro a
  induction a with
  | nil =>
      intro b s t _ hb h
      cases b with
      | nil => exact ⟨rfl, by simpa using h⟩
      | cons c b' =>
          simp only [List.nil_append, List.cons_append] at h
          injection h with h1 _
          exact absurd h1.symm (hb c (List.mem_cons_self c b'))
  | cons c a' ih =>
      intro b s t ha hb h
      cases b with
      | nil =>
          simp only [List.cons_append, List.nil_append] at h
          injection h with h1 _
          exact absurd h1 (ha c (List.mem_cons_self c a'))
      | cons d b' =>
          simp only [List.cons_append] at h
          injection h with h1 h2
          obtain ⟨hab, hst⟩ := ih b' s t
            (fun x hx => ha x (List.mem_cons_of_mem _ hx))
            (fun x hx => hb x (List.mem_cons_of_mem _ hx)) h2
          exact ⟨by rw [h1, hab], hst⟩


theorem randomSuffix_length_le (k : Nat) : (randomSuffix k).length ≤ 9 := by
  show (((randomToString36 k).data.drop 2).take 9).length ≤ 9
  exact List.length_take_le 9 _


theorem genReference_data (t k : Nat) :
    (genReference t k).data =
      'r' :: 'e' :: 'f' :: '_' ::
        ((decRepr t).data ++ '_' :: (randomSuffix k).data) := by
  have h1 : ("ref_" : String).data = ['r', 'e', 'f', '_'] := rfl
  have h2 : ("_" : String).data = ['_'] := rfl
  unfold genReference
  rw [String.data_append, String.data_append, String.data_append, h1, h2]
  simp

theorem genReference_eq_imp (t1 t2 k1 k2 : Nat)
    (h : genReference t1 k1 = genReference t2 k2) : t1 = t2 := by
  have hd := congrArg String.data h
  rw [genReference_data, genReference_data] at hd
  simp only [List.cons.injEq, true_and] at hd
  obtain ⟨hrepr, _⟩ := underscore_split _ _ _ _
    (decRepr_no_underscore t1) (decRepr_no_underscore t2) hd
  exact decRepr_inj hrepr

set_option maxRecDepth 10000 in
/-- Counterexample to C7: the random suffix is not always 9 base-36
characters. For the `Math.random()` draw `1/2` (that is, `k = 2^52` out
of `2^53`), `(0.5).toString(36)` is `"0.i"`, whose `substr(2, 9)` is the
single character `i`: the generated reference is
`ref_1700000000000_i`, with a 1-character suffix. -/
theorem genReference_suffix_not_always_nine :
    genReference 1700000000000 (2 ^ 52) = "ref_1700000000000_i" ∧
    (randomSuffix (2 ^ 52)).length = 1 := by
  constructor
  · decide
  · decide

/-- C7 (amended): a generated reference is
`ref_<unix millis>_<random suffix>` where the suffix consists of the
first at most 9 base-36 fractional digits of the random draw (it can be
shorter than 9 when the expansion terminates early); references
generated at distinct timestamps are always distinct, while uniqueness
for equal timestamps rests on the random suffix only. -/
theorem genReference_shape_and_distinct (t1 t2 k1 k2 : Nat) (hne : t1 ≠ t2) :
    (randomSuffix k1).length ≤ 9 ∧
    genReference t1 k1 ≠ genReference t2 k2 :=
  ⟨randomSuffix_length_le k1,
   fun h => hne (genReference_eq_imp t1 t2 k1 k2 h)⟩

set_option maxRecDepth 10000 in
/-- Witness for the amended C7: two consecutive calls one millisecond
apart yield distinct references. -/
theorem genReference_shape_and_distinct_witness :
    (randomSuffix 1).length ≤ 9 ∧
    genReference 1700000000000 1 ≠ genReference 1700000000001 1 :=
  genReference_shape_and_distinct 1700000000000 1700000000001 1 1 (by omega)

/-! ## C1 — which bytes the webhook digest is computed over

The spec requires the HMAC to be computed over the raw request-body
bytes captured prior to JSON parsing. The handler instead computes it
over `JSON.stringify(req.body)`, the re-serialization of the body that
`express.json()` already parsed. The two byte sequences differ for any
legitimately signed body whose raw bytes are not identical to the
canonical re-serialization (for example, a body containing whitespace),
and the handler then rejects the correctly signed request. -/

/-- Raw webhook body bytes as the sender signed them (note the
whitespace around the field). -/
def rawWebhookBody : String := "\x7b \"event\": \"charge.success\" \x7d"

/-- The value `express.json()` parses `rawWebhookBody` into. -/
def parsedWebhookBody : Json := .obj (.cons "event" (.str "charge.success") .nil)

set_option maxRecDepth 1000000 in
set_option maxHeartbeats 2000000 in
/-- C1 (code bug): the webhook digest is computed over the
re-serialized parsed body, not over the raw bytes captured before
parsing. Concretely: `rawWebhookBody` parses to `parsedWebhookBody`, yet
its canonical re-serialization differs from the raw bytes, so a request
signed — exactly as the claim prescribes — with the hex HMAC-SHA256 of
the raw body bytes is rejected with 400 and never dispatched, while a
signature over the re-serialization is accepted. -/
theorem webhook_digest_over_reserialization :
    jsonParse rawWebhookBody = some parsedWebhookBody ∧
    Json.stringify parsedWebhookBody ≠ rawWebhookBody ∧
    webhookHandler "sk_test_secret" parsedWebhookBody
        (some (hmacSha256Hex "sk_test_secret" rawWebhookBody)) =
      ⟨400, "Invalid signature", none⟩ ∧
    webhookHandler "sk_test_secret" parsedWebhookBody
        (some (hmacSha256Hex "sk_test_secret"
          (Json.stringify parsedWebhookBody))) =
      ⟨200, "Webhook received", some .chargeSuccess⟩ := by
  refine ⟨by rfl, by decide, by decide, by rfl⟩

end Server
